import Mathlib

/-!
Shallow embedding of the format-discovery engine of `bevy_brp_extras`
(files `src/discovery/{registry,error,examples,types,spawn,mutation,core}.rs`).

Conventions of the embedding:
* `serde_json::Value` is modelled by `Brp.Value`; JSON numbers are exact
  rationals (the `f32`/`f64` constants are written as the exact rational
  value of the corresponding IEEE bit pattern).
* `serde_json::Map` and `std::collections::HashMap` are modelled as
  association lists with insert-or-replace semantics (`assocInsert`);
  only key membership, lookup and entry count matter to the properties
  proved here, and those agree with the Rust maps.
* The `DebugContext` threaded through the Rust functions is a write-only
  accumulator of diagnostic strings that never influences any returned
  value or control flow; the embedding drops it.
* Rust `for` loops that `extend` a vector through a fallible call are
  rendered with `List.mapM`/`List.flatten`, and infallible loops with
  `List.map`/`List.foldl`.
-/

namespace Brp

/-- JSON values (`serde_json::Value`). Numbers are exact rationals. -/
inductive Value : Type where
  | null : Value
  | bool : Bool → Value
  | num : ℚ → Value
  | str : String → Value
  | arr : List Value → Value
  | obj : List (String × Value) → Value

/-- Structural implementation of `str::split` with a non-empty separator
(leftmost, non-overlapping matches). The `Nat` fuel is instantiated with
the length of the text, which bounds the number of steps, so the
exhaustion arm is unreachable; fuel recursion keeps the function
kernel-reducible. -/
def splitAux (sep : List Char) : Nat → List Char → List Char →
    List (List Char)
  | 0, _, cur => [cur.reverse]
  | _ + 1, [], cur => [cur.reverse]
  | fuel + 1, c :: rest, cur =>
    if sep.isPrefixOf (c :: rest) then
      cur.reverse :: splitAux sep fuel (List.drop (sep.length - 1) rest) []
    else
      splitAux sep fuel rest (c :: cur)

/-- Rust `str::split` by a non-empty separator, as a list of chunks. -/
def stringSplit (s sep : String) : List String :=
  (splitAux sep.data s.data.length s.data []).map String.mk

/-- `true` iff `pat` occurs as a substring of `s` (Rust `str::contains`
for a non-empty pattern); splitting yields more than one chunk exactly
when the pattern occurs. -/
def strContains (s pat : String) : Bool :=
  (stringSplit s pat).length > 1

/-- Insert-or-replace into an association list (Rust `HashMap::insert` /
`serde_json::Map::insert`): replacing keeps the entry's position, a fresh
key is appended. -/
def assocInsert {α : Type} (m : List (String × α)) (k : String) (v : α) :
    List (String × α) :=
  if m.any (fun p => p.1 == k) then
    m.map (fun p => if p.1 == k then (k, v) else p)
  else
    m ++ [(k, v)]

/-- First-match lookup in an association list. -/
def assocFind {α : Type} : List (String × α) → String → Option α
  | [], _ => none
  | p :: rest, k => if p.1 == k then some p.2 else assocFind rest k

/-- The keys of an association list, in order. -/
def keysOf {α : Type} (m : List (String × α)) : List String :=
  m.map Prod.fst

/-- `registry.rs`: `RegistryError`. -/
inductive RegistryError : Type where
  | typeNotFound : String → RegistryError
deriving DecidableEq

/-- `error.rs`: `DiscoveryError`. -/
inductive DiscoveryError : Type where
  | registry : RegistryError → DiscoveryError
  | unsupportedType : String → DiscoveryError
  | formatGeneration : String → DiscoveryError
deriving DecidableEq

/-- `DiscoveryError::type_not_supported_for`. -/
def DiscoveryError.type_not_supported_for (type_name operation : String) :
    DiscoveryError :=
  .unsupportedType (operation ++ " not supported for type: " ++ type_name)

/-- `DiscoveryError::type_cast_failed`. -/
def DiscoveryError.type_cast_failed (from_type to_type : String) :
    DiscoveryError :=
  .formatGeneration ("Failed to cast " ++ from_type ++ " to " ++ to_type)

/-- `DiscoveryError::no_example_for_type`. -/
def DiscoveryError.no_example_for_type (type_name : String) : DiscoveryError :=
  .unsupportedType ("No example available for type: " ++ type_name)

/-- `RegistryError::to_json_error`. -/
def RegistryError.to_json_error : RegistryError → List (String × Value)
  | .typeNotFound type_name =>
      [("reason", .str "Type not found in registry"),
       ("details", .str ("Type '" ++ type_name ++
         "' is not registered with Bevy's type registry"))]

/-- `DiscoveryError::to_json_error`. -/
def DiscoveryError.to_json_error : DiscoveryError → List (String × Value)
  | .registry e => e.to_json_error
  | .unsupportedType message =>
      [("reason", .str "Unsupported type"), ("details", .str message)]
  | .formatGeneration message =>
      [("reason", .str "Format generation error"), ("details", .str message)]

/-- `Result<T, DiscoveryError>` (`DiscoveryResult<T>`). -/
abbrev DiscoveryResult (α : Type) := Except DiscoveryError α

/-- `true` on `Ok`, `false` on `Err` (Rust `Result::is_ok`). -/
def exceptIsOk {ε α : Type} : Except ε α → Bool
  | .ok _ => true
  | .error _ => false

/-- `examples.rs`: `generate_primitive_example`. The float constants are
the exact rational values of `f32::consts::PI` and `f64::consts::PI`. -/
def generate_primitive_example (type_name : String) : DiscoveryResult Value :=
  match type_name with
  | "i8" => .ok (.num (-128))
  | "i16" => .ok (.num (-32768))
  | "i32" => .ok (.num (-2147483648))
  | "i64" => .ok (.num (-9223372036854775808))
  | "i128" => .ok (.str "-170141183460469231731687303715884105728")
  | "u8" => .ok (.num 255)
  | "u16" => .ok (.num 65535)
  | "u32" => .ok (.num 4294967295)
  | "u64" => .ok (.num 18446744073709551615)
  | "u128" => .ok (.str "340282366920938463463374607431768211455")
  | "f32" => .ok (.num (13176795 / 4194304))
  | "f64" => .ok (.num (884279719003555 / 281474976710656))
  | "alloc::string::String" => .ok (.str "example_string")
  | "std::string::String" => .ok (.str "example_string")
  | "String" => .ok (.str "example_string")
  | "&str" => .ok (.str "example_str")
  | "str" => .ok (.str "example_str")
  | "char" => .ok (.str "A")
  | "bool" => .ok (.bool true)
  | "bevy_math::vec2::Vec2" => .ok (.arr [.num 1, .num 2])
  | "bevy_math::vec3::Vec3" => .ok (.arr [.num 1, .num 2, .num 3])
  | "bevy_math::vec3a::Vec3A" => .ok (.arr [.num 1, .num 2, .num 3])
  | "bevy_math::vec4::Vec4" => .ok (.arr [.num 1, .num 2, .num 3, .num 4])
  | "bevy_math::quat::Quat" => .ok (.arr [.num 0, .num 0, .num 0, .num 1])
  | "bevy_math::mat2::Mat2" =>
      .ok (.arr [.arr [.num 1, .num 0], .arr [.num 0, .num 1]])
  | "bevy_math::mat3::Mat3" =>
      .ok (.arr [.arr [.num 1, .num 0, .num 0], .arr [.num 0, .num 1, .num 0],
                 .arr [.num 0, .num 0, .num 1]])
  | "bevy_math::mat4::Mat4" =>
      .ok (.arr [.arr [.num 1, .num 0, .num 0, .num 0],
                 .arr [.num 0, .num 1, .num 0, .num 0],
                 .arr [.num 0, .num 0, .num 1, .num 0],
                 .arr [.num 0, .num 0, .num 0, .num 1]])
  | "bevy_color::srgba::Srgba" =>
      .ok (.obj [("red", .num 1), ("green", .num 0), ("blue", .num 0),
                 ("alpha", .num 1)])
  | "bevy_color::linear_rgba::LinearRgba" =>
      .ok (.obj [("red", .num 1), ("green", .num 0), ("blue", .num 0),
                 ("alpha", .num 1)])
  | "bevy_color::Color" =>
      .ok (.obj [("Srgba", .obj [("red", .num 1), ("green", .num 0),
                 ("blue", .num 0), ("alpha", .num 1)])])
  | "alloc::vec::Vec" => .ok (.arr [])
  | "std::collections::HashMap" => .ok (.obj [])
  | "std::collections::BTreeMap" => .ok (.obj [])
  | "core::option::Option" => .ok .null
  | _ => .error (DiscoveryError.no_example_for_type type_name)

/-- `examples.rs`: `is_primitive_type`. -/
def is_primitive_type (type_name : String) : Bool :=
  match type_name with
  | "i8" | "i16" | "i32" | "i64" | "i128"
  | "u8" | "u16" | "u32" | "u64" | "u128"
  | "f32" | "f64" | "bool" | "char"
  | "alloc::string::String" | "std::string::String" | "String"
  | "&str" | "str" => true
  | _ => false

/-- `examples.rs`: `generate_default_example_for_type`. -/
def generate_default_example_for_type (type_name : String) : Value :=
  match generate_primitive_example type_name with
  | .ok v => v
  | .error _ =>
      if strContains type_name "Option" then .null
      else if strContains type_name "Vec" then .arr []
      else if strContains type_name "HashMap" || strContains type_name "BTreeMap"
        then .obj []
      else
        .str ("example_" ++
          (match (stringSplit type_name "::").getLast? with
           | some last => last
           | none => type_name))

/-- `bevy::reflect::VariantInfo`, restricted to what the discovery code
reads: the variant's name and its fields' names/type paths. -/
inductive VariantInfo : Type where
  | unit : String → VariantInfo
  | structV : String → List (String × String) → VariantInfo
  | tupleV : String → List String → VariantInfo
deriving DecidableEq

/-- `VariantInfo::name`. -/
def VariantInfo.name : VariantInfo → String
  | .unit n => n
  | .structV n _ => n
  | .tupleV n _ => n

/-- `bevy::reflect::StructInfo`: ordered `(field name, field type path)`. -/
structure StructInfo : Type where
  fields : List (String × String)
deriving DecidableEq

/-- `StructInfo::field_len`. -/
def StructInfo.field_len (si : StructInfo) : Nat := si.fields.length

/-- `bevy::reflect::TupleStructInfo`: ordered field type paths. -/
structure TupleStructInfo : Type where
  fields : List String
deriving DecidableEq

/-- `TupleStructInfo::field_len`. -/
def TupleStructInfo.field_len (tsi : TupleStructInfo) : Nat :=
  tsi.fields.length

/-- `bevy::reflect::EnumInfo`: ordered variants. -/
structure EnumInfo : Type where
  variants : List VariantInfo
deriving DecidableEq

/-- `bevy::reflect::TypeInfo`, restricted to the structure the discovery
code inspects. `TypeInfo::Opaque` is rendered as `atomic` (the word itself
is a Lean keyword); element/key/value type paths are kept for fidelity
although the discovery code never reads them. -/
inductive TypeInfo : Type where
  | structI : StructInfo → TypeInfo
  | tupleStructI : TupleStructInfo → TypeInfo
  | tupleI : List String → TypeInfo
  | arrayI : String → Nat → TypeInfo
  | listI : String → TypeInfo
  | mapI : String → String → TypeInfo
  | setI : String → TypeInfo
  | enumI : EnumInfo → TypeInfo
  | atomic : String → TypeInfo
deriving DecidableEq

/-- `types.rs`: `TypeCategory`. -/
inductive TypeCategory : Type where
  | structC | tupleStructC | tupleC | arrayC | listC | mapC | setC
  | enumC | atomicC
deriving DecidableEq

/-- `types.rs`: `analyze_type_info`. -/
def analyze_type_info : TypeInfo → TypeCategory
  | .structI _ => .structC
  | .tupleStructI _ => .tupleStructC
  | .tupleI _ => .tupleC
  | .arrayI _ _ => .arrayC
  | .listI _ => .listC
  | .mapI _ _ => .mapC
  | .setI _ => .setC
  | .enumI _ => .enumC
  | .atomic _ => .atomicC

/-- `types.rs`: `extract_struct_fields` (identity on the embedded data). -/
def extract_struct_fields (si : StructInfo) : List (String × String) :=
  si.fields

/-- `types.rs`: `extract_tuple_struct_fields` (`iter().enumerate()`). -/
def extract_tuple_struct_fields (tsi : TupleStructInfo) :
    List (Nat × String) :=
  tsi.fields.enum

/-- `types.rs`: `extract_enum_variants`. -/
def extract_enum_variants (ei : EnumInfo) : List (String × VariantInfo) :=
  ei.variants.map (fun v => (v.name, v))

/-- `types.rs`: `is_mutable_type`. -/
def is_mutable_type (ti : TypeInfo) : Bool :=
  match analyze_type_info ti with
  | .structC | .tupleStructC | .tupleC => true
  | _ => false

/-- `types.rs`: `cast_type_info` — the cast functions `TypeInfo::as_struct`
etc. are modelled as `Option` projections; `None` becomes
`type_cast_failed`, as in the source. -/
def cast_type_info {α : Type} (cast_result : Option α) (type_name : String) :
    DiscoveryResult α :=
  match cast_result with
  | some v => .ok v
  | none => .error (DiscoveryError.type_cast_failed "TypeInfo" type_name)

/-- `TypeInfo::as_struct`. -/
def TypeInfo.as_struct : TypeInfo → Option StructInfo
  | .structI si => some si
  | _ => none

/-- `TypeInfo::as_tuple_struct`. -/
def TypeInfo.as_tuple_struct : TypeInfo → Option TupleStructInfo
  | .tupleStructI tsi => some tsi
  | _ => none

/-- `TypeInfo::as_enum`. -/
def TypeInfo.as_enum : TypeInfo → Option EnumInfo
  | .enumI ei => some ei
  | _ => none

/-- `format.rs`: `SpawnInfo`. -/
structure SpawnInfo : Type where
  example_val : Value
  description : String

/-- `format.rs`: `FieldInfo`. -/
structure FieldInfo : Type where
  path : String
  value_type : String
  example_val : Value
  description : String

/-- `format.rs`: `MutationInfo` (`fields` is a `HashMap<String, FieldInfo>`,
modelled as an association list, see `assocInsert`). -/
structure MutationInfo : Type where
  fields : List (String × FieldInfo)
  description : String

/-- `format.rs`: `FormatInfo`. -/
structure FormatInfo : Type where
  type_name : String
  spawn_format : SpawnInfo
  mutation_info : MutationInfo

/-- The per-field example logic shared verbatim by
`generate_spawn_format_for_struct`, `generate_spawn_format_for_tuple_struct`
and the base path of `generate_field_mutation_paths`: primitive types get
their primitive example (falling back to the default on failure), all other
types get the default example. -/
def field_example_value (field_type : String) : Value :=
  if is_primitive_type field_type then
    match generate_primitive_example field_type with
    | .ok v => v
    | .error _ => generate_default_example_for_type field_type
  else
    generate_default_example_for_type field_type

/-- `spawn.rs`: `generate_spawn_format_for_struct` — always `Ok`
(the source carries `#[allow(clippy::unnecessary_wraps)]`). -/
def generate_spawn_format_for_struct (struct_info : StructInfo) :
    DiscoveryResult SpawnInfo :=
  let spawn_example :=
    (extract_struct_fields struct_info).foldl
      (fun m p => assocInsert m p.1 (field_example_value p.2)) []
  .ok { example_val := .obj spawn_example,
        description := "Spawn format for struct with " ++
          toString spawn_example.length ++ " fields" }

/-- `spawn.rs`: `generate_spawn_format_for_tuple_struct` — always `Ok`;
every field example is pushed into an array, with no special case for
single-field tuple structs. -/
def generate_spawn_format_for_tuple_struct (tuple_struct_info : TupleStructInfo) :
    DiscoveryResult SpawnInfo :=
  let spawn_example :=
    (extract_tuple_struct_fields tuple_struct_info).map
      (fun p => field_example_value p.2)
  .ok { example_val := .arr spawn_example,
        description := "Spawn format for tuple struct with " ++
          toString spawn_example.length ++ " fields" }

/-- The per-variant example of `generate_spawn_format_for_enum`'s loop. -/
def variant_example : VariantInfo → Value
  | .unit variant_name => .str variant_name
  | .structV variant_name fields =>
      .obj [(variant_name,
        .obj (fields.foldl
          (fun m p => assocInsert m p.1 (generate_default_example_for_type p.2))
          []))]
  | .tupleV variant_name fields =>
      .obj [(variant_name, .arr (fields.map generate_default_example_for_type))]

/-- `spawn.rs`: `generate_spawn_format_for_enum` — errors on a zero-variant
enum, otherwise builds one `variant_<name>` entry per declared variant
("showing all possible variants"). -/
def generate_spawn_format_for_enum (enum_info : EnumInfo) :
    DiscoveryResult SpawnInfo :=
  let variants := extract_enum_variants enum_info
  if variants.isEmpty then
    .error (.formatGeneration "Enum has no variants")
  else
    let variant_examples :=
      variants.foldl
        (fun m p => assocInsert m ("variant_" ++ p.1) (variant_example p.2)) []
    .ok { example_val := .obj variant_examples,
          description := "Spawn format for enum with " ++
            toString variant_examples.length ++
            " variants (showing all possible variants)" }

/-- `spawn.rs`: `generate_spawn_format_for_primitive`. -/
def generate_spawn_format_for_primitive (type_name : String) :
    DiscoveryResult SpawnInfo :=
  match generate_primitive_example type_name with
  | .error e => .error e
  | .ok example_val =>
      .ok { example_val,
            description := "Spawn format for primitive type: " ++ type_name }

/-- `spawn.rs`: `generate_spawn_format` — dispatch on the type category;
List/Array/Map/Set/Tuple fall into the `_ => Err(type_not_supported_for)`
arm. -/
def generate_spawn_format (type_info : TypeInfo) (type_name : String) :
    DiscoveryResult SpawnInfo :=
  match analyze_type_info type_info with
  | .structC => do
      let struct_info ← cast_type_info type_info.as_struct "StructInfo"
      generate_spawn_format_for_struct struct_info
  | .tupleStructC => do
      let tuple_struct_info ←
        cast_type_info type_info.as_tuple_struct "TupleStructInfo"
      generate_spawn_format_for_tuple_struct tuple_struct_info
  | .enumC => do
      let enum_info ← cast_type_info type_info.as_enum "EnumInfo"
      generate_spawn_format_for_enum enum_info
  | .atomicC => generate_spawn_format_for_primitive type_name
  | _ =>
      .error (DiscoveryError.type_not_supported_for type_name
        "Spawn format generation")

/-- `mutation.rs`: `create_field_info`. -/
def create_field_info (path value_type : String) (example_val : Value)
    (description : String) : FieldInfo :=
  { path, value_type, example_val, description }

/-- `mutation.rs`: `field_info_vec_to_map` (collect into
`HashMap<String, FieldInfo>` keyed by path; a later duplicate path
replaces the earlier entry). -/
def field_info_vec_to_map (field_paths : List FieldInfo) :
    List (String × FieldInfo) :=
  field_paths.foldl (fun m fi => assocInsert m fi.path fi) []

/-- `mutation.rs`: `generate_vec_mutation_paths`. -/
def generate_vec_mutation_paths (base_path _field_type : String) :
    List FieldInfo :=
  [create_field_info (base_path ++ "[0]") "array_element"
     (.str "first_element_value") "Mutate the first element of the Vec",
   create_field_info (base_path ++ "[1]") "array_element"
     (.str "second_element_value") "Mutate the second element of the Vec"]

/-- `mutation.rs`: `generate_map_mutation_paths`. -/
def generate_map_mutation_paths (base_path _field_type : String) :
    List FieldInfo :=
  [create_field_info (base_path ++ "[\"key\"]") "map_value"
     (.str "value_for_key") "Mutate a value in the map by key"]

/-- `mutation.rs`: `generate_math_type_mutation_paths`. -/
def generate_math_type_mutation_paths (base_path field_type : String) :
    List FieldInfo :=
  let components : List (String × ℚ) :=
    if strContains field_type "Vec2" then [("x", 1), ("y", 2)]
    else if strContains field_type "Vec3" then [("x", 1), ("y", 2), ("z", 3)]
    else if strContains field_type "Vec4" || strContains field_type "Quat" then
      [("x", 1), ("y", 2), ("z", 3), ("w", 4)]
    else []
  components.map (fun p =>
    create_field_info (base_path ++ "." ++ p.1) "f32" (.num p.2)
      ("Mutate the " ++ p.1 ++ " component"))

/-- `mutation.rs`: `generate_vec3_field_paths`. -/
def generate_vec3_field_paths (base_path field_name : String)
    (default_value : List ℚ) (component_values : Option (List ℚ)) :
    List FieldInfo :=
  let paths :=
    [create_field_info (base_path ++ "." ++ field_name)
       "bevy_math::vec3::Vec3" (.arr (default_value.map Value.num))
       ("Mutate the entire " ++ field_name)]
  match component_values with
  | some values =>
      paths ++ (["x", "y", "z"].zip values).map (fun p =>
        create_field_info (base_path ++ "." ++ field_name ++ "." ++ p.1)
          "f32" (.num p.2)
          ("Mutate the " ++ field_name ++ " " ++ p.1 ++ " component"))
  | none => paths

/-- `mutation.rs`: `generate_transform_mutation_paths` — the hand-curated
sub-tree used for fields whose type name contains "Transform": translation
(whole + x/y/z), rotation (whole quaternion only), scale (whole + x only,
"only showing x component as per original"). -/
def generate_transform_mutation_paths (base_path : String) : List FieldInfo :=
  generate_vec3_field_paths base_path "translation" [0, 0, 0]
      (some [10, 20, 30]) ++
    [create_field_info (base_path ++ ".rotation") "bevy_math::quat::Quat"
       (.arr [.num 0, .num 0, .num 0, .num 1]) "Mutate the entire rotation",
     create_field_info (base_path ++ ".scale") "bevy_math::vec3::Vec3"
       (.arr [.num 1, .num 1, .num 1]) "Mutate the entire scale",
     create_field_info (base_path ++ ".scale.x") "f32" (.num 2)
       "Mutate the scale x component"]

/-- `mutation.rs`: `is_bevy_math_type` (`starts_with`, checked on the
character lists so that it stays kernel-reducible). -/
def is_bevy_math_type (type_name : String) : Bool :=
  "bevy_math::".data.isPrefixOf type_name.data

/-- `mutation.rs`: `is_bevy_transform_type`. -/
def is_bevy_transform_type (type_name : String) : Bool :=
  strContains type_name "Transform"

/-- `mutation.rs`: `generate_field_mutation_paths` — always `Ok` (the
source carries `#[allow(clippy::unnecessary_wraps)]`). The `contains("Vec")`
check runs before the `is_bevy_math_type` check in the `if/else` chain. -/
def generate_field_mutation_paths (field_name field_type : String) :
    DiscoveryResult (List FieldInfo) :=
  let base_path := "." ++ field_name
  let example_value := field_example_value field_type
  let paths :=
    [create_field_info base_path field_type example_value
       ("Mutate the entire " ++ field_name ++ " field")]
  let paths := paths ++
    (if strContains field_type "Vec" then
       generate_vec_mutation_paths base_path field_type
     else if strContains field_type "HashMap" ||
             strContains field_type "BTreeMap" then
       generate_map_mutation_paths base_path field_type
     else if is_bevy_math_type field_type then
       generate_math_type_mutation_paths base_path field_type
     else if is_bevy_transform_type field_type then
       generate_transform_mutation_paths base_path
     else [])
  .ok paths

/-- `mutation.rs`: `generate_mutation_info_for_struct` (the `for` loop
that `?`-extends `field_paths` is rendered as `mapM` + `flatten`). -/
def generate_mutation_info_for_struct (struct_info : StructInfo) :
    DiscoveryResult MutationInfo := do
  let path_lists ←
    (extract_struct_fields struct_info).mapM
      (fun p => generate_field_mutation_paths p.1 p.2)
  let fields_map := field_info_vec_to_map path_lists.flatten
  .ok { fields := fields_map,
        description := "Mutation info for struct with " ++
          toString struct_info.field_len ++ " fields" }

/-- `mutation.rs`: `generate_mutation_info_for_tuple_struct`. -/
def generate_mutation_info_for_tuple_struct
    (tuple_struct_info : TupleStructInfo) : DiscoveryResult MutationInfo := do
  let path_lists ←
    (extract_tuple_struct_fields tuple_struct_info).mapM
      (fun p => generate_field_mutation_paths (toString p.1) p.2)
  let fields_map := field_info_vec_to_map path_lists.flatten
  .ok { fields := fields_map,
        description := "Mutation info for tuple struct with " ++
          toString tuple_struct_info.field_len ++ " fields" }

/-- `mutation.rs`: `generate_mutation_info` — rejects non-mutable types;
the `Tuple` category passes `is_mutable_type` but falls into the
`_ => Err(type_not_supported_for)` arm of the `match`. -/
def generate_mutation_info (type_info : TypeInfo) (type_name : String) :
    DiscoveryResult MutationInfo :=
  if !is_mutable_type type_info then
    .error (.unsupportedType ("Type " ++ type_name ++
      " is not mutable (only structs, tuple structs, and tuples support mutation)"))
  else
    match analyze_type_info type_info with
    | .structC => do
        let struct_info ← cast_type_info type_info.as_struct "StructInfo"
        generate_mutation_info_for_struct struct_info
    | .tupleStructC => do
        let tuple_struct_info ←
          cast_type_info type_info.as_tuple_struct "TupleStructInfo"
        generate_mutation_info_for_tuple_struct tuple_struct_info
    | _ =>
        .error (DiscoveryError.type_not_supported_for type_name
          "Mutation info generation")

/-- The world's type registry (`AppTypeRegistry` keyed by type path), as
seen through `registry.rs`: a pure name → `TypeInfo` lookup. -/
def Registry : Type := String → Option TypeInfo

/-- `registry.rs`: `get_type_info_from_registry`. -/
def get_type_info_from_registry (reg : Registry) (type_name : String) :
    Except RegistryError TypeInfo :=
  match reg type_name with
  | some registration => .ok registration
  | none => .error (.typeNotFound type_name)

/-- `core.rs`: `MultiDiscoveryResult` (both maps are `HashMap`s, modelled
as association lists). -/
structure MultiDiscoveryResult : Type where
  formats : List (String × FormatInfo)
  errors : List (String × List (String × Value))

/-- `core.rs`: `discover_component_format` — lookup, then spawn format
(`?`), then mutation info: for mutable types `generate_mutation_info` is
propagated with `?`, for non-mutable types an empty placeholder
`MutationInfo` is substituted instead. -/
def discover_component_format (world : Registry) (type_name : String) :
    DiscoveryResult FormatInfo := do
  let type_info ←
    (get_type_info_from_registry world type_name).mapError
      DiscoveryError.registry
  let spawn_info ← generate_spawn_format type_info type_name
  let mutation_info ←
    if is_mutable_type type_info then
      generate_mutation_info type_info type_name
    else
      .ok { fields := [],
            description := "Type " ++ type_name ++
              " does not support mutation" }
  .ok { type_name, spawn_format := spawn_info, mutation_info }

/-- The loop body of `discover_multiple_formats_with_debug`: a success is
inserted into `formats`, a failure's `to_json_error` into `errors`. -/
def discover_step (world : Registry) (acc : MultiDiscoveryResult)
    (type_name : String) : MultiDiscoveryResult :=
  match discover_component_format world type_name with
  | .ok format_info =>
      { acc with formats := assocInsert acc.formats type_name format_info }
  | .error e =>
      { acc with errors := assocInsert acc.errors type_name e.to_json_error }

/-- `core.rs`: `discover_multiple_formats_with_debug` (the debug context
only collects messages; the maps are built by the loop). -/
def discover_multiple_formats_with_debug (world : Registry)
    (type_names : List String) : MultiDiscoveryResult :=
  type_names.foldl (discover_step world) ⟨[], []⟩

/-- `core.rs`: `discover_multiple_formats` — delegates to
`discover_multiple_formats_with_debug` with a fresh debug context. -/
def discover_multiple_formats (world : Registry) (type_names : List String) :
    MultiDiscoveryResult :=
  discover_multiple_formats_with_debug world type_names

/-- serde serialization of `SpawnInfo` (fields in declaration order). -/
def SpawnInfo.toValue (si : SpawnInfo) : Value :=
  .obj [("example", si.example_val), ("description", .str si.description)]

/-- serde serialization of `FieldInfo`. -/
def FieldInfo.toValue (fi : FieldInfo) : Value :=
  .obj [("path", .str fi.path), ("value_type", .str fi.value_type),
        ("example", fi.example_val), ("description", .str fi.description)]

/-- serde serialization of `MutationInfo`. -/
def MutationInfo.toValue (mi : MutationInfo) : Value :=
  .obj [("fields", .obj (mi.fields.map (fun p => (p.1, p.2.toValue)))),
        ("description", .str mi.description)]

/-- serde serialization of `FormatInfo`. -/
def FormatInfo.toValue (fi : FormatInfo) : Value :=
  .obj [("type_name", .str fi.type_name),
        ("spawn_format", fi.spawn_format.toValue),
        ("mutation_info", fi.mutation_info.toValue)]

/-- `serde_json`'s `response[key] = value` on an object (insert-or-replace;
the discovery code only ever indexes into objects). -/
def jsonSet (v : Value) (k : String) (x : Value) : Value :=
  match v with
  | .obj m => .obj (assocInsert m k x)
  | other => other

/-- Key lookup in a JSON object. -/
def getKey (v : Value) (k : String) : Option Value :=
  match v with
  | .obj m => assocFind m k
  | _ => none

/-- Two-level key lookup (`resp["summary"]["success_rate"]`). -/
def getKey2 (v : Value) (k1 k2 : String) : Option Value :=
  match getKey v k1 with
  | some w => getKey w k2
  | none => none

/-- `core.rs`: `create_discovery_response` — base object, then the
conditional `errors`/`error_count` and `debug_info` entries, then the
`summary` object whose `success_rate` is `0.0` for an empty request and
`formats.len() / requested_types.len()` otherwise. -/
def create_discovery_response (discovery_result : MultiDiscoveryResult)
    (requested_types : List String)
    (debug_context : Option (List String)) : Value :=
  let response := Value.obj
    [("success", .bool true),
     ("formats", .obj (discovery_result.formats.map
        (fun p => (p.1, p.2.toValue)))),
     ("requested_types", .arr (requested_types.map Value.str)),
     ("discovered_count", .num discovery_result.formats.length)]
  let response :=
    if discovery_result.errors.isEmpty then response
    else
      jsonSet
        (jsonSet response "errors"
          (.obj (discovery_result.errors.map (fun p => (p.1, .obj p.2)))))
        "error_count" (.num discovery_result.errors.length)
  let response :=
    match debug_context with
    | some messages =>
        if messages.isEmpty then response
        else jsonSet response "debug_info" (.arr (messages.map Value.str))
    | none => response
  jsonSet response "summary" (Value.obj
    [("total_requested", .num requested_types.length),
     ("successful_discoveries", .num discovery_result.formats.length),
     ("failed_discoveries", .num discovery_result.errors.length),
     ("success_rate", .num
       (if requested_types.isEmpty then 0
        else (discovery_result.formats.length : ℚ) /
          (requested_types.length : ℚ)))])

/-- The path-key list of a generated mutation info (empty on error). -/
def mutation_path_keys (ti : TypeInfo) (tn : String) : List String :=
  match generate_mutation_info ti tn with
  | .ok mi => keysOf mi.fields
  | .error _ => []

/-- The path names produced by `generate_field_mutation_paths` for one
field (empty on error, which never happens). -/
def field_mutation_path_names (field_name field_type : String) :
    List String :=
  match generate_field_mutation_paths field_name field_type with
  | .ok ps => ps.map FieldInfo.path
  | .error _ => []

/-- Fixture: an enum descriptor with unit variants V1 and V2, in that
declaration order. -/
def enumV1V2 : EnumInfo := ⟨[.unit "V1", .unit "V2"]⟩

/-- Fixture: the struct descriptor of `bevy_transform`'s `Transform`
(fields `translation: Vec3`, `rotation: Quat`, `scale: Vec3`). -/
def transformStruct : StructInfo :=
  ⟨[("translation", "bevy_math::vec3::Vec3"),
    ("rotation", "bevy_math::quat::Quat"),
    ("scale", "bevy_math::vec3::Vec3")]⟩

/-- Fixture: the full `Transform` type path. -/
def transformPath : String :=
  "bevy_transform::components::transform::Transform"

/-- Fixture: a registry exposing one discoverable struct type "T". -/
def regT : Registry := fun n =>
  if n == "T" then some (.structI ⟨[("a", "f32")]⟩) else none

/-- Fixture: a registry exposing one enum type "E" (spawnable but not
mutable). -/
def regE : Registry := fun n =>
  if n == "E" then some (.enumI ⟨[.unit "A"]⟩) else none

/-- Membership form of the `any` test used inside `assocInsert`. -/
theorem any_beq_eq_mem_keysOf {α : Type} (m : List (String × α)) (k : String) :
    (m.any (fun p => p.1 == k)) = true ↔ k ∈ keysOf m := by
  rw [List.any_eq_true]
  unfold keysOf
  rw [List.mem_map]
  constructor
  · rintro ⟨p, hp, hbeq⟩
    exact ⟨p, hp, by simpa using hbeq⟩
  · rintro ⟨p, hp, heq⟩
    exact ⟨p, hp, by simpa using heq⟩

/-- Inserting a fresh key appends the entry. -/
theorem assocInsert_of_not_mem {α : Type} {m : List (String × α)} {k : String}
    (v : α) (h : k ∉ keysOf m) : assocInsert m k v = m ++ [(k, v)] := by
  unfold assocInsert
  rw [if_neg (fun hc => h ((any_beq_eq_mem_keysOf m k).mp hc))]

/-- Keys distribute over list append. -/
theorem keysOf_append {α : Type} (m n : List (String × α)) :
    keysOf (m ++ n) = keysOf m ++ keysOf n := by
  simp [keysOf]

/-- Replacing the value at an existing key leaves the key list unchanged. -/
theorem keysOf_map_replace {α : Type} (m : List (String × α)) (k : String)
    (v : α) :
    keysOf (m.map (fun p => if p.1 == k then (k, v) else p)) = keysOf m := by
  unfold keysOf
  rw [List.map_map]
  apply List.map_congr_left
  intro p _
  by_cases h : p.1 = k
  · simp [Function.comp, h]
  · simp [Function.comp, h]

/-- Inserting an already-present key leaves the key list unchanged. -/
theorem keysOf_assocInsert_of_mem {α : Type} {m : List (String × α)}
    {k : String} (v : α) (h : k ∈ keysOf m) :
    keysOf (assocInsert m k v) = keysOf m := by
  unfold assocInsert
  rw [if_pos ((any_beq_eq_mem_keysOf m k).mpr h)]
  exact keysOf_map_replace m k v

/-- Key membership after an insert. -/
theorem mem_keysOf_assocInsert {α : Type} (m : List (String × α))
    (k a : String) (v : α) :
    a ∈ keysOf (assocInsert m k v) ↔ a ∈ keysOf m ∨ a = k := by
  by_cases hk : k ∈ keysOf m
  · rw [keysOf_assocInsert_of_mem v hk]
    constructor
    · exact Or.inl
    · rintro (h | rfl)
      · exact h
      · exact hk
  · rw [assocInsert_of_not_mem v hk, keysOf_append]
    simp [keysOf]

/-- Inserts preserve distinctness of the key list. -/
theorem keysOf_assocInsert_nodup {α : Type} (m : List (String × α))
    (k : String) (v : α) (h : (keysOf m).Nodup) :
    (keysOf (assocInsert m k v)).Nodup := by
  by_cases hk : k ∈ keysOf m
  · rw [keysOf_assocInsert_of_mem v hk]
    exact h
  · rw [assocInsert_of_not_mem v hk, keysOf_append]
    rw [List.nodup_append]
    refine ⟨h, List.nodup_singleton k, ?_⟩
    intro a ha hb
    have hak : a = k := by simpa [keysOf] using hb
    exact hk (hak ▸ ha)

/-- Lookup after replacing the value at a present key. -/
theorem assocFind_map_replace {α : Type} (m : List (String × α)) (k : String)
    (v : α) (h : m.any (fun p => p.1 == k) = true) :
    assocFind (m.map (fun p => if p.1 == k then (k, v) else p)) k = some v := by
  induction m with
  | nil => simp at h
  | cons p t ih =>
    by_cases hp : p.1 = k
    · simp [assocFind, hp]
    · have hbeq : ¬((p.1 == k) = true) := by simpa using hp
      have h' : t.any (fun q => q.1 == k) = true := by
        simp only [List.any_cons, Bool.or_eq_true] at h
        rcases h with hcontra | h
        · exact absurd hcontra hbeq
        · exact h
      rw [List.map_cons, if_neg hbeq]
      simp only [assocFind, if_neg hbeq]
      exact ih h'

/-- Lookup after appending a fresh key finds the appended value. -/
theorem assocFind_append_of_not_mem {α : Type} (m : List (String × α))
    (k : String) (v : α) (h : k ∉ keysOf m) :
    assocFind (m ++ [(k, v)]) k = some v := by
  induction m with
  | nil => simp [assocFind]
  | cons p t ih =>
    simp only [keysOf, List.map_cons, List.mem_cons, not_or] at h
    have hbeq : ¬((p.1 == k) = true) := by
      simp only [beq_iff_eq]
      exact fun e => h.1 e.symm
    simp only [List.cons_append, assocFind, if_neg hbeq]
    exact ih h.2

/-- Lookup always finds the value just inserted. -/
theorem assocFind_assocInsert_self {α : Type} (m : List (String × α))
    (k : String) (v : α) : assocFind (assocInsert m k v) k = some v := by
  unfold assocInsert
  by_cases h : m.any (fun p => p.1 == k) = true
  · rw [if_pos h]
    exact assocFind_map_replace m k v h
  · rw [if_neg h]
    exact assocFind_append_of_not_mem m k v
      (fun hm => h ((any_beq_eq_mem_keysOf m k).mpr hm))

/-- Folding `assocInsert` over pairwise-fresh, distinct keys is plain
append. -/
theorem foldl_assocInsert_append {α : Type} :
    ∀ (l acc : List (String × α)),
      (∀ p ∈ l, p.1 ∉ keysOf acc) → (l.map Prod.fst).Nodup →
      l.foldl (fun m p => assocInsert m p.1 p.2) acc = acc ++ l
  | [], acc, _, _ => by simp
  | q :: t, acc, hfresh, hnd => by
    rw [List.map_cons] at hnd
    have hq_not := (List.nodup_cons.mp hnd).1
    have hnd' := (List.nodup_cons.mp hnd).2
    simp only [List.foldl_cons]
    rw [assocInsert_of_not_mem q.2 (hfresh q (List.mem_cons_self q t))]
    have hfresh' : ∀ p ∈ t, p.1 ∉ keysOf (acc ++ [q]) := by
      intro p hp hmem
      rw [keysOf_append] at hmem
      rcases List.mem_append.mp hmem with hacc | hq
      · exact hfresh p (List.mem_cons_of_mem q hp) hacc
      · have hpq : p.1 = q.1 := by simpa [keysOf] using hq
        exact hq_not (hpq ▸ List.mem_map_of_mem Prod.fst hp)
    rw [foldl_assocInsert_append t (acc ++ [q]) hfresh' hnd']
    simp

/-- A `mapM` of an everywhere-successful function succeeds. -/
theorem mapM_except_ok {α β ε : Type} (f : α → Except ε β)
    (h : ∀ a, ∃ b, f a = .ok b) :
    ∀ l : List α, ∃ ys, l.mapM f = Except.ok ys := by
  intro l
  induction l with
  | nil => exact ⟨[], rfl⟩
  | cons a t ih =>
    obtain ⟨b, hb⟩ := h a
    obtain ⟨ys, hys⟩ := ih
    refine ⟨b :: ys, ?_⟩
    rw [List.mapM_cons, hb]
    show List.cons b <$> t.mapM f = Except.ok (b :: ys)
    rw [hys]
    rfl

/-- `generate_field_mutation_paths` never fails (its body ends in `Ok`). -/
theorem generate_field_mutation_paths_ok (field_name field_type : String) :
    ∃ ps, generate_field_mutation_paths field_name field_type = Except.ok ps :=
  ⟨_, rfl⟩

/-- `generate_mutation_info_for_struct` never fails. -/
theorem generate_mutation_info_for_struct_ok (si : StructInfo) :
    ∃ mi, generate_mutation_info_for_struct si = Except.ok mi := by
  obtain ⟨ys, hys⟩ := mapM_except_ok
    (fun p => generate_field_mutation_paths p.1 p.2)
    (fun p => generate_field_mutation_paths_ok p.1 p.2)
    (extract_struct_fields si)
  unfold generate_mutation_info_for_struct
  rw [hys]
  exact ⟨_, rfl⟩

/-- `generate_mutation_info_for_tuple_struct` never fails. -/
theorem generate_mutation_info_for_tuple_struct_ok (tsi : TupleStructInfo) :
    ∃ mi, generate_mutation_info_for_tuple_struct tsi = Except.ok mi := by
  obtain ⟨ys, hys⟩ := mapM_except_ok
    (fun p => generate_field_mutation_paths (toString p.1) p.2)
    (fun p => generate_field_mutation_paths_ok (toString p.1) p.2)
    (extract_tuple_struct_fields tsi)
  unfold generate_mutation_info_for_tuple_struct
  rw [hys]
  exact ⟨_, rfl⟩

/-- On a struct descriptor `generate_mutation_info` is exactly the struct
generator (the mutability test and the cast both succeed). -/
theorem generate_mutation_info_structI (si : StructInfo) (tn : String) :
    generate_mutation_info (.structI si) tn =
      generate_mutation_info_for_struct si := rfl

/-- On a tuple-struct descriptor `generate_mutation_info` is exactly the
tuple-struct generator. -/
theorem generate_mutation_info_tupleStructI (tsi : TupleStructInfo)
    (tn : String) :
    generate_mutation_info (.tupleStructI tsi) tn =
      generate_mutation_info_for_tuple_struct tsi := rfl

/-- Loop-body rewriting: a successful discovery inserts into `formats`. -/
theorem discover_step_ok (world : Registry) (acc : MultiDiscoveryResult)
    (a : String) (fi : FormatInfo)
    (h : discover_component_format world a = .ok fi) :
    discover_step world acc a =
      { acc with formats := assocInsert acc.formats a fi } := by
  unfold discover_step
  rw [h]

/-- Loop-body rewriting: a failed discovery inserts into `errors`. -/
theorem discover_step_error (world : Registry) (acc : MultiDiscoveryResult)
    (a : String) (e : DiscoveryError)
    (h : discover_component_format world a = .error e) :
    discover_step world acc a =
      { acc with errors := assocInsert acc.errors a e.to_json_error } := by
  unfold discover_step
  rw [h]

/-- Key membership in the `formats` map built by the discovery loop. -/
theorem mem_formats_foldl (world : Registry) :
    ∀ (names : List String) (acc : MultiDiscoveryResult) (n : String),
      n ∈ keysOf (names.foldl (discover_step world) acc).formats ↔
        (n ∈ keysOf acc.formats ∨
         (n ∈ names ∧ exceptIsOk (discover_component_format world n) = true))
  | [], acc, n => by simp
  | a :: t, acc, n => by
    rw [List.foldl_cons, mem_formats_foldl world t (discover_step world acc a) n]
    cases hda : discover_component_format world a with
    | ok fi =>
      rw [discover_step_ok world acc a fi hda]
      show n ∈ keysOf (assocInsert acc.formats a fi) ∨ _ ↔ _
      rw [mem_keysOf_assocInsert]
      constructor
      · rintro ((hm | heq) | ⟨hmem, hok⟩)
        · exact Or.inl hm
        · refine Or.inr ⟨?_, ?_⟩
          · rw [heq]
            exact List.mem_cons_self a t
          · rw [heq, hda]
            rfl
        · exact Or.inr ⟨List.mem_cons_of_mem a hmem, hok⟩
      · rintro (hm | ⟨hmem, hok⟩)
        · exact Or.inl (Or.inl hm)
        · rcases List.mem_cons.mp hmem with rfl | hmem'
          · exact Or.inl (Or.inr rfl)
          · exact Or.inr ⟨hmem', hok⟩
    | error e =>
      rw [discover_step_error world acc a e hda]
      show n ∈ keysOf acc.formats ∨ _ ↔ _
      constructor
      · rintro (hm | ⟨hmem, hok⟩)
        · exact Or.inl hm
        · exact Or.inr ⟨List.mem_cons_of_mem a hmem, hok⟩
      · rintro (hm | ⟨hmem, hok⟩)
        · exact Or.inl hm
        · rcases List.mem_cons.mp hmem with rfl | hmem'
          · rw [hda] at hok
            exact absurd hok (by simp [exceptIsOk])
          · exact Or.inr ⟨hmem', hok⟩

/-- Key membership in the `errors` map built by the discovery loop. -/
theorem mem_errors_foldl (world : Registry) :
    ∀ (names : List String) (acc : MultiDiscoveryResult) (n : String),
      n ∈ keysOf (names.foldl (discover_step world) acc).errors ↔
        (n ∈ keysOf acc.errors ∨
         (n ∈ names ∧ exceptIsOk (discover_component_format world n) = false))
  | [], acc, n => by simp
  | a :: t, acc, n => by
    rw [List.foldl_cons, mem_errors_foldl world t (discover_step world acc a) n]
    cases hda : discover_component_format world a with
    | ok fi =>
      rw [discover_step_ok world acc a fi hda]
      show n ∈ keysOf acc.errors ∨ _ ↔ _
      constructor
      · rintro (hm | ⟨hmem, hok⟩)
        · exact Or.inl hm
        · exact Or.inr ⟨List.mem_cons_of_mem a hmem, hok⟩
      · rintro (hm | ⟨hmem, hok⟩)
        · exact Or.inl hm
        · rcases List.mem_cons.mp hmem with rfl | hmem'
          · rw [hda] at hok
            exact absurd hok (by simp [exceptIsOk])
          · exact Or.inr ⟨hmem', hok⟩
    | error e =>
      rw [discover_step_error world acc a e hda]
      show n ∈ keysOf (assocInsert acc.errors a e.to_json_error) ∨ _ ↔ _
      rw [mem_keysOf_assocInsert]
      constructor
      · rintro ((hm | heq) | ⟨hmem, hok⟩)
        · exact Or.inl hm
        · refine Or.inr ⟨?_, ?_⟩
          · rw [heq]
            exact List.mem_cons_self a t
          · rw [heq, hda]
            rfl
        · exact Or.inr ⟨List.mem_cons_of_mem a hmem, hok⟩
      · rintro (hm | ⟨hmem, hok⟩)
        · exact Or.inl (Or.inl hm)
        · rcases List.mem_cons.mp hmem with rfl | hmem'
          · exact Or.inl (Or.inr rfl)
          · exact Or.inr ⟨hmem', hok⟩

/-- The discovery loop keeps the `formats` key list duplicate-free. -/
theorem nodup_formats_foldl (world : Registry) :
    ∀ (names : List String) (acc : MultiDiscoveryResult),
      (keysOf acc.formats).Nodup →
      (keysOf ((names.foldl (discover_step world) acc)).formats).Nodup
  | [], _, h => h
  | a :: t, acc, h => by
    rw [List.foldl_cons]
    apply nodup_formats_foldl world t
    cases hda : discover_component_format world a with
    | ok fi =>
      rw [discover_step_ok world acc a fi hda]
      exact keysOf_assocInsert_nodup acc.formats a fi h
    | error e =>
      rw [discover_step_error world acc a e hda]
      exact h

/-- The discovery loop keeps the `errors` key list duplicate-free. -/
theorem nodup_errors_foldl (world : Registry) :
    ∀ (names : List String) (acc : MultiDiscoveryResult),
      (keysOf acc.errors).Nodup →
      (keysOf ((names.foldl (discover_step world) acc)).errors).Nodup
  | [], _, h => h
  | a :: t, acc, h => by
    rw [List.foldl_cons]
    apply nodup_errors_foldl world t
    cases hda : discover_component_format world a with
    | ok fi =>
      rw [discover_step_ok world acc a fi hda]
      exact h
    | error e =>
      rw [discover_step_error world acc a e hda]
      exact keysOf_assocInsert_nodup acc.errors a e.to_json_error h

/-- Setting a key on an object makes it retrievable. -/
theorem getKey_jsonSet_self (v : Value) (k : String) (x : Value)
    (h : ∃ m, v = Value.obj m) : getKey (jsonSet v k x) k = some x := by
  obtain ⟨m, rfl⟩ := h
  show assocFind (assocInsert m k x) k = some x
  exact assocFind_assocInsert_self m k x

/-- Setting a key on an object yields an object. -/
theorem jsonSet_isObj (v : Value) (k : String) (x : Value)
    (h : ∃ m, v = Value.obj m) : ∃ m', jsonSet v k x = Value.obj m' := by
  obtain ⟨m, rfl⟩ := h
  exact ⟨_, rfl⟩

/-- A conditional between two objects is an object. -/
theorem ite_isObj (c : Prop) {h : Decidable c} (v1 v2 : Value)
    (h1 : ∃ m, v1 = Value.obj m) (h2 : ∃ m, v2 = Value.obj m) :
    ∃ m, (if c then v1 else v2) = Value.obj m := by
  split
  · exact h1
  · exact h2

/-- The `summary` entry of every discovery response. -/
theorem getKey_response_summary (r : MultiDiscoveryResult)
    (req : List String) (dbg : Option (List String)) :
    getKey (create_discovery_response r req dbg) "summary" =
      some (Value.obj
        [("total_requested", .num req.length),
         ("successful_discoveries", .num r.formats.length),
         ("failed_discoveries", .num r.errors.length),
         ("success_rate", .num (if req.isEmpty then 0
            else (r.formats.length : ℚ) / (req.length : ℚ)))]) := by
  simp only [create_discovery_response]
  apply getKey_jsonSet_self
  cases dbg with
  | none =>
    exact ite_isObj _ _ _ ⟨_, rfl⟩
      (jsonSet_isObj _ _ _ (jsonSet_isObj _ _ _ ⟨_, rfl⟩))
  | some msgs =>
    exact ite_isObj _ _ _
      (ite_isObj _ _ _ ⟨_, rfl⟩
        (jsonSet_isObj _ _ _ (jsonSet_isObj _ _ _ ⟨_, rfl⟩)))
      (jsonSet_isObj _ _ _
        (ite_isObj _ _ _ ⟨_, rfl⟩
          (jsonSet_isObj _ _ _ (jsonSet_isObj _ _ _ ⟨_, rfl⟩))))

/-- Folding keyed inserts over a list with distinct keys builds exactly
the key/value pair list. -/
theorem foldl_assocInsert_map {α β : Type} (l : List β) (key : β → String)
    (val : β → α) (hnd : (l.map key).Nodup) :
    l.foldl (fun m b => assocInsert m (key b) (val b)) [] =
      l.map (fun b => (key b, val b)) := by
  have hfresh : ∀ p ∈ l.map (fun b => (key b, val b)),
      p.1 ∉ keysOf ([] : List (String × α)) := by
    intro p _ hmem
    simp [keysOf] at hmem
  have hnd2 : ((l.map (fun b => (key b, val b))).map Prod.fst).Nodup := by
    rw [List.map_map]
    exact hnd
  have h := foldl_assocInsert_append (l.map (fun b => (key b, val b))) []
    hfresh hnd2
  rw [List.foldl_map] at h
  simpa using h

/-- Prepending a fixed string is injective. -/
theorem append_left_injective (pre : String) :
    Function.Injective (fun s => pre ++ s) := by
  intro s1 s2 h12
  have hd := congrArg String.data h12
  rw [String.data_append, String.data_append] at hd
  exact String.ext (List.append_cancel_left hd)

/-- C1: falsified as stated. For the enum with unit variants V1, V2 (in
that order) the spawn example is an object listing every variant, not the
scalar "V1": `generate_spawn_format_for_enum` loops over all variants and
its description even says "showing all possible variants". -/
theorem C1_counterexample :
    (generate_spawn_format (.enumI enumV1V2) "MyEnum").map
        SpawnInfo.example_val ≠ Except.ok (Value.str "V1") := by
  intro h
  exact Value.noConfusion (Except.ok.inj h)

/-- C1 (amended): for every enum descriptor with at least one variant and
distinct variant names, the spawn example is a JSON object with one
`variant_<name>` entry per declared variant, in declaration order (a unit
variant's entry is its name as a scalar, per `variant_example`) — the
first declared variant is never singled out. -/
theorem C1_enum_spawn_lists_all_variants (ei : EnumInfo) (tn : String)
    (hne : ei.variants ≠ [])
    (hnd : (ei.variants.map VariantInfo.name).Nodup) :
    (generate_spawn_format (.enumI ei) tn).map SpawnInfo.example_val =
      Except.ok (Value.obj (ei.variants.map
        (fun v => ("variant_" ++ v.name, variant_example v)))) := by
  rw [show generate_spawn_format (.enumI ei) tn =
    generate_spawn_format_for_enum ei from rfl]
  unfold generate_spawn_format_for_enum
  have hcond : ¬((extract_enum_variants ei).isEmpty = true) := by
    unfold extract_enum_variants
    simp [List.isEmpty_iff, hne]
  rw [if_neg hcond]
  show Except.ok (Value.obj ((extract_enum_variants ei).foldl
    (fun m p => assocInsert m ("variant_" ++ p.1) (variant_example p.2))
    [])) = _
  have hnd2 : ((extract_enum_variants ei).map
      (fun p => "variant_" ++ p.1)).Nodup := by
    have heq : (extract_enum_variants ei).map (fun p => "variant_" ++ p.1) =
        (ei.variants.map VariantInfo.name).map (fun s => "variant_" ++ s) := by
      unfold extract_enum_variants
      simp [List.map_map]
    rw [heq]
    exact hnd.map (append_left_injective "variant_")
  have h2 := foldl_assocInsert_map (extract_enum_variants ei)
    (fun p => "variant_" ++ p.1) (fun p => variant_example p.2) hnd2
  rw [h2]
  have h3 : (extract_enum_variants ei).map
      (fun p => ("variant_" ++ p.1, variant_example p.2)) =
      ei.variants.map (fun v => ("variant_" ++ v.name, variant_example v)) := by
    unfold extract_enum_variants
    simp [List.map_map]
  rw [h3]

/-- C1 witness: the amended statement instantiated at the V1/V2 enum. -/
theorem C1_witness :
    enumV1V2.variants ≠ [] ∧
    (enumV1V2.variants.map VariantInfo.name).Nodup ∧
    (generate_spawn_format (.enumI enumV1V2) "MyEnum").map
        SpawnInfo.example_val =
      Except.ok (Value.obj (enumV1V2.variants.map
        (fun v => ("variant_" ++ v.name, variant_example v)))) :=
  ⟨by decide, by decide,
    C1_enum_spawn_lists_all_variants enumV1V2 "MyEnum" (by decide) (by decide)⟩

/-- C2: falsified as stated. "mystery::Unknown" has no constructible
example (`generate_primitive_example` fails on it), yet struct spawn
generation succeeds anyway, substituting the default
`"example_Unknown"` — it never returns an error, let alone one listing
failing fields. -/
theorem C2_counterexample :
    exceptIsOk (generate_primitive_example "mystery::Unknown") = false ∧
    generate_spawn_format_for_struct ⟨[("f", "mystery::Unknown")]⟩ =
      Except.ok { example_val := .obj [("f", .str "example_Unknown")],
                  description := "Spawn format for struct with 1 fields" } :=
  ⟨rfl, rfl⟩

/-- C2 (amended): struct spawn generation never fails. For every struct
descriptor with distinct field names — including ones whose fields have no
constructible example — it succeeds, and the example is an object with one
entry per declared field holding the field's best-effort example
(`field_example_value`, which falls back to a generic default instead of
erroring). -/
theorem C2_struct_spawn_never_fails (si : StructInfo)
    (hnd : (si.fields.map Prod.fst).Nodup) :
    (generate_spawn_format_for_struct si).map SpawnInfo.example_val =
      Except.ok (Value.obj (si.fields.map
        (fun p => (p.1, field_example_value p.2)))) := by
  unfold generate_spawn_format_for_struct
  show Except.ok (Value.obj ((extract_struct_fields si).foldl
    (fun m p => assocInsert m p.1 (field_example_value p.2)) [])) = _
  have hnd2 : ((extract_struct_fields si).map (fun p => p.1)).Nodup := hnd
  have h2 := foldl_assocInsert_map (extract_struct_fields si)
    (fun p => p.1) (fun p => field_example_value p.2) hnd2
  rw [h2]
  rfl

/-- C2 witness: the amended statement instantiated at a struct with one
unconstructible field. -/
theorem C2_witness :
    ((⟨[("f", "mystery::Unknown")]⟩ : StructInfo).fields.map
      Prod.fst).Nodup ∧
    (generate_spawn_format_for_struct ⟨[("f", "mystery::Unknown")]⟩).map
        SpawnInfo.example_val =
      Except.ok (Value.obj ([("f", "mystery::Unknown")].map
        (fun p => (p.1, field_example_value p.2)))) :=
  ⟨by decide, C2_struct_spawn_never_fails ⟨[("f", "mystery::Unknown")]⟩
    (by decide)⟩

/-- C3: falsified as stated. A List descriptor does not yield the empty
array — `generate_spawn_format` rejects it with an `UnsupportedType`
error, and likewise a Map descriptor does not yield the empty object. -/
theorem C3_counterexample :
    ((generate_spawn_format (.listI "f32") "alloc::vec::Vec<f32>").map
        SpawnInfo.example_val ≠ Except.ok (Value.arr [])) ∧
    ((generate_spawn_format (.mapI "alloc::string::String" "f32")
        "std::collections::HashMap<String, f32>").map SpawnInfo.example_val ≠
      Except.ok (Value.obj [])) :=
  ⟨fun h => Except.noConfusion h, fun h => Except.noConfusion h⟩

/-- C3 (amended): for every List, Array or Map descriptor,
`generate_spawn_format` fails with the `UnsupportedType` error
"Spawn format generation not supported for type: <name>" — these
categories fall into the catch-all arm of the dispatch, with no empty
array/object result. -/
theorem C3_list_array_map_unsupported (element_type key_type value_type
    type_name : String) (len : Nat) :
    generate_spawn_format (.listI element_type) type_name =
      .error (DiscoveryError.type_not_supported_for type_name
        "Spawn format generation") ∧
    generate_spawn_format (.arrayI element_type len) type_name =
      .error (DiscoveryError.type_not_supported_for type_name
        "Spawn format generation") ∧
    generate_spawn_format (.mapI key_type value_type) type_name =
      .error (DiscoveryError.type_not_supported_for type_name
        "Spawn format generation") :=
  ⟨rfl, rfl, rfl⟩

/-- C4: falsified as stated. For the single-field tuple struct over
`bool`, the inner field's example is `true`, but the spawn example is the
one-element array `[true]`, not the unwrapped inner example. -/
theorem C4_counterexample :
    field_example_value "bool" = Value.bool true ∧
    (generate_spawn_format_for_tuple_struct ⟨["bool"]⟩).map
        SpawnInfo.example_val = Except.ok (Value.arr [Value.bool true]) ∧
    (generate_spawn_format_for_tuple_struct ⟨["bool"]⟩).map
        SpawnInfo.example_val ≠ Except.ok (Value.bool true) :=
  ⟨rfl, rfl, fun h => Value.noConfusion (Except.ok.inj h)⟩

/-- C4 (amended): the spawn example of a single-field tuple struct is the
one-element array wrapping the inner field's example — there is no
"newtype transparency" special case. -/
theorem C4_single_field_tuple_struct_wraps (field_type : String) :
    (generate_spawn_format_for_tuple_struct ⟨[field_type]⟩).map
        SpawnInfo.example_val =
      Except.ok (Value.arr [field_example_value field_type]) := rfl

/-- C5: falsified as stated. For the Transform struct descriptor the
claimed keys `.translation.x` and `.scale.x` are absent: the Vec3 field
type name contains "Vec", so the list-like branch fires before the
math-type branch and emits index paths instead of component paths. -/
theorem C5_counterexample :
    ((mutation_path_keys (.structI transformStruct) transformPath).contains
        ".translation.x" = false) ∧
    ((mutation_path_keys (.structI transformStruct) transformPath).contains
        ".scale.x" = false) := by decide

/-- C5 (amended): mutation info generated for the Transform struct
descriptor has exactly the keys `.translation`, `.translation[0]`,
`.translation[1]`, `.rotation`, `.rotation.x/.y/.z/.w`, `.scale`,
`.scale[0]`, `.scale[1]`: Vec3 fields get the Vec index paths (their type
name contains "Vec"), the Quat field gets the four component paths, and no
`.translation.x`/`.scale.x` (nor `.scale.y`/`.scale.z`) keys appear. -/
theorem C5_transform_mutation_keys :
    mutation_path_keys (.structI transformStruct) transformPath =
      [".translation", ".translation[0]", ".translation[1]",
       ".rotation", ".rotation.x", ".rotation.y", ".rotation.z",
       ".rotation.w", ".scale", ".scale[0]", ".scale[1]"] := by decide

/-- C6: falsified as stated. A field of type `bevy_math::vec2::Vec2` does
not get per-component sub-paths: because the type name contains "Vec",
the list-like branch produces `[0]`/`[1]` index paths and `.x`/`.y` never
appear. -/
theorem C6_counterexample :
    (field_mutation_path_names "size" "bevy_math::vec2::Vec2" =
      [".size", ".size[0]", ".size[1]"]) ∧
    ((field_mutation_path_names "size" "bevy_math::vec2::Vec2").contains
        ".size.x" = false) := by decide

/-- C6 (amended): among the namespace-prefixed math types, only the
quaternion (`bevy_math::quat::Quat`, whose name does not contain "Vec")
receives per-component sub-paths `.x/.y/.z/.w`; the vector types
`Vec2`/`Vec3`/`Vec4` all match the `contains("Vec")` list-like check
first and receive the two index sub-paths `[0]`/`[1]` instead. -/
theorem C6_math_type_paths (field_name : String) :
    (field_mutation_path_names field_name "bevy_math::quat::Quat" =
      ["." ++ field_name, "." ++ field_name ++ "." ++ "x",
       "." ++ field_name ++ "." ++ "y", "." ++ field_name ++ "." ++ "z",
       "." ++ field_name ++ "." ++ "w"]) ∧
    (field_mutation_path_names field_name "bevy_math::vec2::Vec2" =
      ["." ++ field_name, "." ++ field_name ++ "[0]",
       "." ++ field_name ++ "[1]"]) ∧
    (field_mutation_path_names field_name "bevy_math::vec3::Vec3" =
      ["." ++ field_name, "." ++ field_name ++ "[0]",
       "." ++ field_name ++ "[1]"]) ∧
    (field_mutation_path_names field_name "bevy_math::vec4::Vec4" =
      ["." ++ field_name, "." ++ field_name ++ "[0]",
       "." ++ field_name ++ "[1]"]) :=
  ⟨rfl, rfl, rfl, rfl⟩

/-- C7: confirmed. If lookup and spawn generation succeed for a type but
`generate_mutation_info` would fail on its descriptor, the discovery of
that type still succeeds — with the empty mutation-info placeholder — and
the type never lands in the errors map of any batch; only lookup and
spawn failures surface as per-type errors. -/
theorem C7_mutation_failure_not_fatal (world : Registry)
    (type_name : String) (ti : TypeInfo)
    (hlookup : world type_name = some ti)
    (hspawn : exceptIsOk (generate_spawn_format ti type_name) = true)
    (hmut : exceptIsOk (generate_mutation_info ti type_name) = false) :
    (∃ fi, discover_component_format world type_name = Except.ok fi ∧
       fi.mutation_info.fields = []) ∧
    (∀ names : List String,
      type_name ∉ keysOf (discover_multiple_formats world names).errors) := by
  have hnotmut : is_mutable_type ti = false := by
    cases ti with
    | structI si =>
      obtain ⟨mi, hmi⟩ := generate_mutation_info_for_struct_ok si
      rw [generate_mutation_info_structI si type_name, hmi] at hmut
      exact Bool.noConfusion hmut
    | tupleStructI tsi =>
      obtain ⟨mi, hmi⟩ := generate_mutation_info_for_tuple_struct_ok tsi
      rw [generate_mutation_info_tupleStructI tsi type_name, hmi] at hmut
      exact Bool.noConfusion hmut
    | tupleI es =>
      have hfalse : exceptIsOk
          (generate_spawn_format (.tupleI es) type_name) = false := rfl
      rw [hfalse] at hspawn
      exact Bool.noConfusion hspawn
    | arrayI e n => rfl
    | listI e => rfl
    | mapI k v => rfl
    | setI e => rfl
    | enumI ei => rfl
    | atomic nm => rfl
  obtain ⟨si, hsi⟩ : ∃ si, generate_spawn_format ti type_name =
      Except.ok si := by
    cases hgs : generate_spawn_format ti type_name with
    | ok si => exact ⟨si, rfl⟩
    | error e =>
      rw [hgs] at hspawn
      exact Bool.noConfusion hspawn
  have hok : discover_component_format world type_name =
      Except.ok ⟨type_name, si,
        ⟨[], "Type " ++ type_name ++ " does not support mutation"⟩⟩ := by
    unfold discover_component_format get_type_info_from_registry
    rw [hlookup]
    show (do
      let spawn_info ← generate_spawn_format ti type_name
      let mutation_info ←
        if is_mutable_type ti then generate_mutation_info ti type_name
        else Except.ok (⟨[], "Type " ++ type_name ++
          " does not support mutation"⟩ : MutationInfo)
      Except.ok (⟨type_name, spawn_info, mutation_info⟩ : FormatInfo)) = _
    rw [hsi, hnotmut]
    rfl
  constructor
  · exact ⟨_, hok, rfl⟩
  · intro names hmem
    unfold discover_multiple_formats discover_multiple_formats_with_debug
      at hmem
    rw [mem_errors_foldl world names ⟨[], []⟩ type_name] at hmem
    rcases hmem with h0 | ⟨_, hfalse⟩
    · simp [keysOf] at h0
    · rw [hok] at hfalse
      exact Bool.noConfusion hfalse

/-- C7 witness: an enum type "E" looks up and spawns fine, its mutation
generation fails (enums are not mutable), and the discovery still
succeeds with empty mutation fields. -/
theorem C7_witness :
    regE "E" = some (TypeInfo.enumI ⟨[VariantInfo.unit "A"]⟩) ∧
    exceptIsOk (generate_spawn_format
      (TypeInfo.enumI ⟨[VariantInfo.unit "A"]⟩) "E") = true ∧
    exceptIsOk (generate_mutation_info
      (TypeInfo.enumI ⟨[VariantInfo.unit "A"]⟩) "E") = false ∧
    ((∃ fi, discover_component_format regE "E" = Except.ok fi ∧
        fi.mutation_info.fields = []) ∧
     (∀ names : List String,
        "E" ∉ keysOf (discover_multiple_formats regE names).errors)) :=
  ⟨rfl, rfl, rfl,
    C7_mutation_failure_not_fatal regE "E"
      (TypeInfo.enumI ⟨[VariantInfo.unit "A"]⟩) rfl rfl rfl⟩

/-- C8: confirmed. Every batch discovery partitions the requested names:
no name is a key of both maps, and a name is requested exactly when it is
a key of one of the two maps. -/
theorem C8_formats_errors_partition (world : Registry)
    (type_names : List String) :
    (∀ n, ¬(n ∈ keysOf (discover_multiple_formats world type_names).formats ∧
            n ∈ keysOf (discover_multiple_formats world type_names).errors)) ∧
    (∀ n, n ∈ type_names ↔
       (n ∈ keysOf (discover_multiple_formats world type_names).formats ∨
        n ∈ keysOf (discover_multiple_formats world type_names).errors)) := by
  unfold discover_multiple_formats discover_multiple_formats_with_debug
  constructor
  · rintro n ⟨hf, he⟩
    rw [mem_formats_foldl world type_names ⟨[], []⟩ n] at hf
    rw [mem_errors_foldl world type_names ⟨[], []⟩ n] at he
    rcases hf with h0 | ⟨_, hok⟩
    · simp [keysOf] at h0
    rcases he with h0 | ⟨_, herr⟩
    · simp [keysOf] at h0
    rw [hok] at herr
    exact Bool.noConfusion herr
  · intro n
    rw [mem_formats_foldl world type_names ⟨[], []⟩ n,
      mem_errors_foldl world type_names ⟨[], []⟩ n]
    constructor
    · intro hn
      cases hok : exceptIsOk (discover_component_format world n) with
      | true => exact Or.inl (Or.inr ⟨hn, rfl⟩)
      | false => exact Or.inr (Or.inr ⟨hn, rfl⟩)
    · rintro (h | h)
      · rcases h with h0 | ⟨hn, _⟩
        · simp [keysOf] at h0
        · exact hn
      · rcases h with h0 | ⟨hn, _⟩
        · simp [keysOf] at h0
        · exact hn

/-- The `success_rate` entry of every discovery response's summary. -/
theorem success_rate_entry (r : MultiDiscoveryResult) (req : List String)
    (dbg : Option (List String)) :
    getKey2 (create_discovery_response r req dbg) "summary" "success_rate" =
      some (Value.num (if req.isEmpty then 0
        else (r.formats.length : ℚ) / (req.length : ℚ))) := by
  unfold getKey2
  rw [getKey_response_summary]
  rfl

/-- C9: confirmed. The summary's `success_rate` read back out of the
response JSON is the number of successful discoveries (the `formats`
entry count) divided by the number of requested type names, and is the
exact number `0` — a real rational, never a NaN — when the requested list
is empty (the code short-circuits the division). -/
theorem C9_success_rate (world : Registry) (names : List String)
    (dbg : Option (List String)) :
    getKey2 (create_discovery_response
        (discover_multiple_formats world names) names dbg)
      "summary" "success_rate" =
      some (Value.num (if names.isEmpty then 0
        else ((discover_multiple_formats world names).formats.length : ℚ) /
          (names.length : ℚ))) :=
  success_rate_entry (discover_multiple_formats world names) names dbg

/-- C10: confirmed. Duplicate requested names collapse into single map
entries, so for any list with a duplicate the successful plus failed
counts fall strictly short of `total_requested`, and the success rate is
strictly below 1 no matter how the discoveries turn out. -/
theorem C10_duplicate_names_collapse (world : Registry)
    (names : List String) (hdup : ¬names.Nodup) :
    ((discover_multiple_formats world names).formats.length +
        (discover_multiple_formats world names).errors.length <
      names.length) ∧
    (∀ q : ℚ,
      getKey2 (create_discovery_response
          (discover_multiple_formats world names) names none)
        "summary" "success_rate" = some (Value.num q) → q < 1) := by
  obtain ⟨r, hr⟩ : ∃ r, discover_multiple_formats world names = r := ⟨_, rfl⟩
  rw [hr]
  have hFmem : ∀ n, n ∈ keysOf r.formats ↔
      (n ∈ names ∧
       exceptIsOk (discover_component_format world n) = true) := by
    intro n
    rw [← hr]
    unfold discover_multiple_formats discover_multiple_formats_with_debug
    rw [mem_formats_foldl world names ⟨[], []⟩ n]
    constructor
    · rintro (h0 | h)
      · simp [keysOf] at h0
      · exact h
    · exact Or.inr
  have hEmem : ∀ n, n ∈ keysOf r.errors ↔
      (n ∈ names ∧
       exceptIsOk (discover_component_format world n) = false) := by
    intro n
    rw [← hr]
    unfold discover_multiple_formats discover_multiple_formats_with_debug
    rw [mem_errors_foldl world names ⟨[], []⟩ n]
    constructor
    · rintro (h0 | h)
      · simp [keysOf] at h0
      · exact h
    · exact Or.inr
  have hFnd : (keysOf r.formats).Nodup := by
    rw [← hr]
    unfold discover_multiple_formats discover_multiple_formats_with_debug
    exact nodup_formats_foldl world names ⟨[], []⟩ (by simp [keysOf])
  have hEnd : (keysOf r.errors).Nodup := by
    rw [← hr]
    unfold discover_multiple_formats discover_multiple_formats_with_debug
    exact nodup_errors_foldl world names ⟨[], []⟩ (by simp [keysOf])
  have hFEnd : (keysOf r.formats ++ keysOf r.errors).Nodup := by
    rw [List.nodup_append]
    refine ⟨hFnd, hEnd, ?_⟩
    intro a haF haE
    exact Bool.noConfusion
      (((hFmem a).mp haF).2.symm.trans ((hEmem a).mp haE).2)
  have hsub : (keysOf r.formats ++ keysOf r.errors).toFinset ⊆
      names.toFinset := by
    intro a ha
    rw [List.mem_toFinset] at ha
    rw [List.mem_toFinset]
    rcases List.mem_append.mp ha with h | h
    · exact ((hFmem a).mp h).1
    · exact ((hEmem a).mp h).1
  have hcard_lt : names.toFinset.card < names.length := by
    refine lt_of_le_of_ne (List.toFinset_card_le names) ?_
    intro hceq
    apply hdup
    have h2 : (names : Multiset String).toFinset.card =
        Multiset.card (names : Multiset String) := by
      rw [Multiset.coe_card]
      exact hceq
    exact Multiset.coe_nodup.mp
      (Multiset.toFinset_card_eq_card_iff_nodup.mp h2)
  have hlen : r.formats.length + r.errors.length < names.length := by
    have e1 : r.formats.length = (keysOf r.formats).length := by
      simp [keysOf]
    have e2 : r.errors.length = (keysOf r.errors).length := by
      simp [keysOf]
    rw [e1, e2]
    calc (keysOf r.formats).length + (keysOf r.errors).length
        = (keysOf r.formats ++ keysOf r.errors).length :=
          (List.length_append _ _).symm
      _ = (keysOf r.formats ++ keysOf r.errors).toFinset.card :=
          (List.toFinset_card_of_nodup hFEnd).symm
      _ ≤ names.toFinset.card := Finset.card_le_card hsub
      _ < names.length := hcard_lt
  refine ⟨hlen, ?_⟩
  intro q hq
  rw [success_rate_entry r names none] at hq
  have hval : (if names.isEmpty then (0 : ℚ)
      else (r.formats.length : ℚ) / (names.length : ℚ)) = q :=
    Value.num.inj (Option.some.inj hq)
  have hne : names ≠ [] := by
    intro h
    apply hdup
    rw [h]
    exact List.nodup_nil
  have hempty : names.isEmpty = false := by
    cases names with
    | nil => exact absurd rfl hne
    | cons a t => rfl
  rw [hempty] at hval
  simp only [Bool.false_eq_true, if_false] at hval
  rw [← hval]
  rw [div_lt_one (by exact_mod_cast List.length_pos.mpr hne)]
  have hforms_lt : r.formats.length < names.length :=
    lt_of_le_of_lt (Nat.le_add_right _ _) hlen
  exact_mod_cast hforms_lt

/-- C10 witness: requesting ["T", "T"] where "T" resolves successfully —
the duplicate collapses, 1 + 0 < 2, and the success rate is below 1. -/
theorem C10_witness :
    ¬(["T", "T"] : List String).Nodup ∧
    (((discover_multiple_formats regT ["T", "T"]).formats.length +
        (discover_multiple_formats regT ["T", "T"]).errors.length <
      (["T", "T"] : List String).length) ∧
    (∀ q : ℚ,
      getKey2 (create_discovery_response
          (discover_multiple_formats regT ["T", "T"]) ["T", "T"] none)
        "summary" "success_rate" = some (Value.num q) → q < 1)) :=
  ⟨by decide, C10_duplicate_names_collapse regT ["T", "T"] (by decide)⟩

end Brp
